import Mathlib

/-!
Verification of the transparency-scoring service in `src/ai-service/app.py`.

The Python service is a thin Flask layer over four pure pieces of logic:
the breakdown scorer (`calculate_transparency_breakdown`), the
category-compliance scorer (`calculate_category_compliance`), the rule-based
recommendation generator (`generate_basic_recommendations`), the AI-output
validator inside `generate_questions`, and the fallback question bank
(`generate_fallback_questions`).  This file shallowly embeds those functions
and proves or refutes the frozen claims about them.

Modelling conventions:
* Python's heterogeneous `answer` value (`string | boolean | number | null`)
  becomes the tagged union `AnswerValue`; a missing `answer` key is
  `Option.none` on the `Answer.answer` field (Python's `dict.get`).
* Python `str(...)` coercion is `pyStr` ("None", "True", "False", decimal
  integers); Python truthiness is `truthy`.
* Python `in` on strings (substring test) is `pyContains`; `.lower()` is
  `pyLower` (ASCII case folding, which covers every keyword the code uses);
  `.strip()` is `pyStrip`.
* Python floats are modelled as `ℚ`; the integer divisions in the code are
  all true divisions, so `ℚ` is exact.  `round(x, 1)` is `round1`.
-/

namespace AltibbeAI

/-- Tagged union for the heterogeneous Python value stored under the
`answer` key of one answer dict: a string, a boolean, an integer, or null. -/
inductive AnswerValue where
  | str (s : String)
  | boolV (b : Bool)
  | intV (n : Int)
  | null
deriving DecidableEq

/-- Python `str(...)` coercion of an `AnswerValue`. -/
def pyStr : AnswerValue → String
  | .str s => s
  | .boolV true => "True"
  | .boolV false => "False"
  | .intV n => toString n
  | .null => "None"

/-- Python truthiness of an `AnswerValue` (`None`, `False`, `0`, `""` are
falsy, everything else is truthy). -/
def truthy : AnswerValue → Bool
  | .str s => !(s == "")
  | .boolV b => b
  | .intV n => !(n == 0)
  | .null => false

/-- One element of the `answers` list sent to the scoring endpoint.
`questionId` models `answer.get('questionId', '')` (a missing key is the
empty string); `answer = none` models a dict without an `'answer'` key. -/
structure Answer where
  questionId : String
  answer : Option AnswerValue
deriving DecidableEq

/-- Python `str(answer.get('answer', ''))`: the text the scorers analyse. -/
def answerStr (a : Answer) : String :=
  match a.answer with
  | none => ""
  | some v => pyStr v

/-- Python `s.lower()` modelled as per-character ASCII case folding. -/
def pyLower (s : String) : String :=
  ⟨s.data.map Char.toLower⟩

/-- Python `s.strip()`: drop leading and trailing whitespace. -/
def pyStrip (s : String) : String :=
  ⟨((s.data.dropWhile Char.isWhitespace).reverse.dropWhile Char.isWhitespace).reverse⟩

/-- Python `needle in haystack` on lists of characters: scan every suffix of
the haystack for the needle as a prefix. -/
def isSubstr (needle : List Char) : List Char → Bool
  | [] => needle.isEmpty
  | c :: t => needle.isPrefixOf (c :: t) || isSubstr needle t

/-- Python `needle in haystack` on strings. -/
def pyContains (needle haystack : String) : Bool :=
  isSubstr needle.data haystack.data

/-- Completeness classifier: the body of the first loop of
`calculate_transparency_breakdown` (app.py lines 240-247), deciding whether
one answer increments `answered_count`. -/
def meaningful (a : Answer) : Bool :=
  match a.answer with
  | none => false
  | some v =>
    if truthy v = true ∧ pyStrip (pyStr v) ≠ "" then
      let t := pyLower (pyStrip (pyStr v))
      if 3 < t.length ∧ t ∉ (["yes", "no", "n/a", "na"] : List String) then true
      else if t ∈ (["yes", "true"] : List String) ∧
          pyContains "certified" a.questionId = true then true
      else false
    else false

/-- Length-tier point value of the quality loop (app.py lines 261-268). -/
def qualityTier (t : String) : Nat :=
  if 50 < t.length then 100
  else if 20 < t.length then 75
  else if 10 < t.length then 50
  else 25

/-- One step of the quality loop: the accumulator carries
`(quality_points, quality_total)` (app.py lines 256-268). -/
def qualityStep (acc : Nat × Nat) (a : Answer) : Nat × Nat :=
  let t := pyStrip (answerStr a)
  if t ≠ "" then (acc.1 + qualityTier t, acc.2 + 1) else acc

/-- Final `(quality_points, quality_total)` of the quality loop. -/
def qualityCounts (answers : List Answer) : Nat × Nat :=
  answers.foldl qualityStep (0, 0)

/-- The fixed 15-word transparency keyword list (app.py lines 274-278). -/
def transparency_keywords : List String :=
  ["certified", "organic", "tested", "verified", "compliant", "standard",
   "warranty", "guarantee", "documentation", "certificate", "audit",
   "eco-friendly", "sustainable", "ethical", "cruelty-free"]

/-- Inner keyword loop of the transparency score: award 10 on the first
keyword found in the text, then break (app.py lines 283-286). -/
def keywordPoints : List String → String → Nat
  | [], _ => 0
  | k :: rest, text => if pyContains k text then 10 else keywordPoints rest text

/-- Accumulated `transparency_points` over all answers (app.py lines 280-286). -/
def transparencyPoints (answers : List Answer) : Nat :=
  answers.foldl (fun acc a => acc + keywordPoints transparency_keywords (pyLower (answerStr a))) 0

/-- Per-category required-term table of `calculate_category_compliance`
(app.py lines 299-306), with the default list for unknown categories. -/
def category_requirements (category : String) : List String :=
  if category = "Electronics" then ["warranty", "safety", "energy", "certification"]
  else if category = "Food & Beverage" then ["expiry", "organic", "allergen", "shelf"]
  else if category = "Clothing" then ["material", "care", "size", "manufacturing"]
  else if category = "Health & Beauty" then ["ingredients", "tested", "dermatolog", "expiry"]
  else ["quality", "origin", "standard"]

/-- Inner term loop of the compliance score: award 25 on the first required
term found in the text or the question id, then break (app.py lines 313-316). -/
def termPoints : List String → String → String → Nat
  | [], _, _ => 0
  | t :: rest, text, qid =>
    if pyContains t text || pyContains t qid then 25 else termPoints rest text qid

/-- Accumulated `compliance_points` over all answers (app.py lines 309-316). -/
def compliancePoints (answers : List Answer) (category : String) : Nat :=
  answers.foldl
    (fun acc a =>
      acc + termPoints (category_requirements category) (pyLower (answerStr a)) (pyLower a.questionId))
    0

/-- Python `calculate_category_compliance(answers, category)` (app.py
lines 296-318): sum of per-answer term points, capped at 100. -/
def calculate_category_compliance (answers : List Answer) (category : String) : ℚ :=
  ((min (compliancePoints answers category) 100 : ℕ) : ℚ)

/-- The four sub-scores returned by `calculate_transparency_breakdown`. -/
structure Breakdown where
  completeness : ℚ
  quality : ℚ
  transparency : ℚ
  compliance : ℚ
deriving DecidableEq

/-- Python `calculate_transparency_breakdown(answers, category)` (app.py
lines 221-294). -/
def calculate_transparency_breakdown (answers : List Answer) (category : String) : Breakdown :=
  if answers.isEmpty then ⟨0, 0, 0, 0⟩
  else
    { completeness := ((answers.countP meaningful : ℚ) / (answers.length : ℚ)) * 100
      quality :=
        let pr := qualityCounts answers
        if pr.2 = 0 then 0 else ((pr.1 : ℚ) / ((pr.2 : ℚ) * 100)) * 100
      transparency := ((min (transparencyPoints answers * 10) 100 : ℕ) : ℚ)
      compliance := calculate_category_compliance answers category }

/-- The four named sub-score areas, in the insertion order of the Python
`scores` dict (app.py lines 225-230), which is the iteration order of
`min(score_breakdown, key=score_breakdown.get)`. -/
inductive ScoreArea where
  | completeness
  | quality
  | transparency
  | compliance
deriving DecidableEq

/-- Value of one sub-score area in a breakdown. -/
def areaValue (b : Breakdown) : ScoreArea → ℚ
  | .completeness => b.completeness
  | .quality => b.quality
  | .transparency => b.transparency
  | .compliance => b.compliance

/-- Python `min(score_breakdown, key=score_breakdown.get)` (app.py line 365):
fold over the dict entries in insertion order, replacing the current best
only on a strictly smaller value, so the first minimum wins. -/
def argminArea (b : Breakdown) : ScoreArea :=
  (([(ScoreArea.quality, b.quality), (ScoreArea.transparency, b.transparency),
     (ScoreArea.compliance, b.compliance)] : List (ScoreArea × ℚ)).foldl
    (fun best p => if p.2 < best.2 then p else best)
    (ScoreArea.completeness, b.completeness)).1

/-- The fixed `recommendation_map` of `generate_basic_recommendations`
(app.py lines 367-372). -/
def recommendation_map : ScoreArea → String
  | .completeness => "Provide more detailed answers to all questions to improve transparency"
  | .quality => "Include more specific details and explanations in your responses"
  | .transparency => "Add more certifications, standards compliance, and quality documentation"
  | .compliance => "Ensure all category-specific requirements and standards are addressed"

/-- Certification recommendation appended when `transparency < 70`
(app.py line 378). -/
def certRec : String :=
  "Consider obtaining relevant certifications for your product category"

/-- Documentation recommendation appended when `quality < 70`
(app.py line 381). -/
def docRec : String :=
  "Provide more comprehensive documentation and detailed product information"

/-- Generic filler appended by the `while len(recommendations) < 3` loop
(app.py line 385). -/
def fillerRec : String :=
  "Continue to improve product transparency and documentation"

/-- Python `generate_basic_recommendations(score_breakdown)` (app.py
lines 359-387). -/
def generate_basic_recommendations (b : Breakdown) : List String :=
  let recs := [recommendation_map (argminArea b)]
  let recs := recs ++ (if b.transparency < 70 then [certRec] else [])
  let recs := recs ++ (if b.quality < 70 then [docRec] else [])
  let recs := recs ++ List.replicate (3 - recs.length) fillerRec
  recs.take 3

/-- Python `round(x, 1)`: round to one decimal place. -/
def round1 (x : ℚ) : ℚ :=
  ((round (x * 10) : ℤ) : ℚ) / 10

/-- Python `sum(score_breakdown.values()) / len(score_breakdown)`
(app.py line 173). -/
def overall_of (b : Breakdown) : ℚ :=
  (b.completeness + b.quality + b.transparency + b.compliance) / 4

/-- Score level derived from the overall score (app.py lines 176-187). -/
def score_level_of (x : ℚ) : String :=
  if 80 ≤ x then "Excellent"
  else if 60 ≤ x then "Good"
  else if 40 ≤ x then "Fair"
  else "Needs Improvement"

/-- Score color derived from the overall score (app.py lines 176-187). -/
def score_color_of (x : ℚ) : String :=
  if 80 ≤ x then "green"
  else if 60 ≤ x then "blue"
  else if 40 ≤ x then "yellow"
  else "red"

/-- Breakdown with every sub-score rounded to one decimal (app.py line 206). -/
def roundBreakdown (b : Breakdown) : Breakdown :=
  ⟨round1 b.completeness, round1 b.quality, round1 b.transparency, round1 b.compliance⟩

/-- The `transparency_score` object of a successful response
(app.py lines 200-212). -/
structure TransparencyScore where
  overall_score : ℚ
  score_level : String
  score_color : String
  breakdown : Breakdown
  recommendations : List String
  product_name : String
  category : String
  total_answers : Nat
deriving DecidableEq

/-- Parsed request body of POST `/api/transparency-score`: `product_name`
and `category` default to the empty string, `answers` to the empty list
(app.py lines 157-159); a missing `answers` key is therefore the empty list. -/
structure ScoreRequest where
  product_name : String
  category : String
  answers : List Answer
deriving DecidableEq

/-- Response of the scoring endpoint: either an error with an HTTP status,
`error` and `message` fields and no score, or a success carrying the score. -/
inductive ScoreResponse where
  | err (status : Nat) (error : String) (message : String)
  | ok (score : TransparencyScore)
deriving DecidableEq

/-- The `transparency_score` payload of a response, when present. -/
def ScoreResponse.overallScore? : ScoreResponse → Option ℚ
  | .err _ _ _ => none
  | .ok s => some s.overall_score

/-- HTTP status of a response (success responses are 200). -/
def ScoreResponse.status : ScoreResponse → Nat
  | .err s _ _ => s
  | .ok _ => 200

/-- Python `calculate_transparency_score()` endpoint handler (app.py
lines 146-212), with `request.get_json()` as the `Option ScoreRequest`
argument (`none` models a missing/empty body).  Models the AI-disabled
configuration, in which recommendations always come from
`generate_basic_recommendations` (app.py line 198); the AI path is
irrelevant to every claim about this endpoint. -/
def transparency_score_endpoint : Option ScoreRequest → ScoreResponse
  | none => .err 400 "Missing request data" "Please provide product data with answers"
  | some d =>
    if d.answers.isEmpty then
      .err 400 "Missing answers" "Please provide product answers for scoring"
    else
      let b := calculate_transparency_breakdown d.answers d.category
      let ov := overall_of b
      .ok { overall_score := round1 ov
            score_level := score_level_of ov
            score_color := score_color_of ov
            breakdown := roundBreakdown b
            recommendations := generate_basic_recommendations b
            product_name := d.product_name
            category := d.category
            total_answers := d.answers.length }

/-- One entry of the JSON array parsed out of the AI response in
`generate_questions`: every field may be absent (app.py lines 489-499). -/
structure RawQuestion where
  id : Option String
  question : Option String
  type : Option String
  required : Option Bool
  options : Option (List String)
deriving DecidableEq

/-- One validated question emitted by `generate_questions`
(app.py lines 490-502) or by the fallback bank; `options = none` models a
dict without an `options` key. -/
structure ValidatedQuestion where
  id : String
  question : String
  type : String
  required : Bool
  options : Option (List String)
deriving DecidableEq

/-- The normalization of one parsed entry at 0-based position `i`
(app.py lines 490-499): default a missing id to the generated placeholder,
a missing type to "text", a missing required flag to true, trim the
question text, and attach options only for a select-typed entry that
carries them. -/
def validate_question (i : Nat) (q : RawQuestion) : ValidatedQuestion :=
  let t := q.type.getD "text"
  { id := q.id.getD ("ai_question_" ++ toString (i + 1))
    question := pyStrip (q.question.getD "")
    type := t
    required := q.required.getD true
    options := if t = "select" ∧ q.options.isSome then q.options else none }

/-- The validation loop of `generate_questions` over the parsed entries,
keeping an entry only when its trimmed question is non-empty
(app.py lines 488-502). -/
def validate_questions_go : Nat → List RawQuestion → List ValidatedQuestion
  | _, [] => []
  | i, q :: rest =>
    let vq := validate_question i q
    if vq.question ≠ "" then vq :: validate_questions_go (i + 1) rest
    else validate_questions_go (i + 1) rest

/-- Validation of the parsed AI entries in `generate_questions`: only the
first 3 entries are considered (`questions[:3]`, app.py line 489). -/
def validate_questions (qs : List RawQuestion) : List ValidatedQuestion :=
  validate_questions_go 0 (qs.take 3)

/-- Python `generate_fallback_questions(category, product_name)`
(app.py lines 541-652). -/
def generate_fallback_questions (category : String) (product_name : String) :
    List ValidatedQuestion :=
  let product_ref := if product_name ≠ "" then "this " ++ product_name else "this product"
  if category = "Electronics" then
    [⟨"warranty_period", "How long is the warranty for " ++ product_ref ++ "?",
      "text", true, none⟩,
     ⟨"energy_efficiency", "Is " ++ product_ref ++ " energy efficient?",
      "boolean", true, none⟩,
     ⟨"safety_certifications", "What safety certifications does " ++ product_ref ++ " have?",
      "text", true, none⟩]
  else if category = "Food & Beverage" then
    [⟨"expiry_shelf_life", "What is the shelf life of " ++ product_ref ++ "?",
      "text", true, none⟩,
     ⟨"organic_certified", "Is " ++ product_ref ++ " certified organic?",
      "boolean", false, none⟩,
     ⟨"allergen_information", "Does " ++ product_ref ++ " contain any common allergens?",
      "text", true, none⟩]
  else if category = "Clothing" then
    [⟨"material_composition", "What materials is " ++ product_ref ++ " made from?",
      "text", true, none⟩,
     ⟨"care_instructions", "How should I care for " ++ product_ref ++ "?",
      "text", true, none⟩,
     ⟨"size_availability", "What sizes are available for " ++ product_ref ++ "?",
      "text", false, none⟩]
  else if category = "Health & Beauty" then
    [⟨"ingredients_list", "What are the main ingredients in " ++ product_ref ++ "?",
      "text", true, none⟩,
     ⟨"skin_tested", "Has " ++ product_ref ++ " been tested for sensitive skin?",
      "boolean", true, none⟩,
     ⟨"expiry_date", "What is the shelf life of " ++ product_ref ++ "?",
      "text", true, none⟩]
  else
    [⟨"quality_standards", "What quality standards does " ++ product_ref ++ " meet?",
      "text", true, none⟩,
     ⟨"country_of_origin", "Where is " ++ product_ref ++ " manufactured?",
      "text", true, none⟩,
     ⟨"customer_support", "What customer support is available for " ++ product_ref ++ "?",
      "text", false, none⟩]

/-! Claim-side definitions.  Each follows the words of a claim (or of its
amended form) rather than the source, and exists only to be compared with
the source-derived definitions above. -/

/-- Claim C3 as stated: an answer is meaningful exactly when its trimmed
lower-cased text has length > 3 and is not one of yes/no/n-slash-a/na, or
its text is yes/true and its questionId contains "certified".  The text of
an answer is its uniformly stringified value, per the data model. -/
def meaningful_claimed (a : Answer) : Bool :=
  let t := pyLower (pyStrip (answerStr a))
  if (3 < t.length ∧ t ∉ (["yes", "no", "n/a", "na"] : List String)) ∨
      (t ∈ (["yes", "true"] : List String) ∧ pyContains "certified" a.questionId = true) then
    true
  else false

/-- Claim C3's completeness formula: meaningfulCount / totalAnswers × 100,
and 0 for an empty answer list. -/
def completeness_claimed (answers : List Answer) : ℚ :=
  if answers = [] then 0
  else ((answers.countP meaningful_claimed : ℚ) / (answers.length : ℚ)) * 100

/-- Claim C3 amended: additionally require the answer value to be present
and truthy in Python's sense (so a null, false, zero or empty-string value
is never meaningful). -/
def meaningful_amended (a : Answer) : Bool :=
  match a.answer with
  | none => false
  | some v =>
    let t := pyLower (pyStrip (pyStr v))
    if truthy v = true ∧
        ((3 < t.length ∧ t ∉ (["yes", "no", "n/a", "na"] : List String)) ∨
         (t ∈ (["yes", "true"] : List String) ∧ pyContains "certified" a.questionId = true)) then
      true
    else false

/-- Predicate of claim C2: the lower-cased text of the answer contains at
least one of the fixed 15 transparency keywords. -/
def hasTransparencyKeyword (a : Answer) : Bool :=
  transparency_keywords.any (fun k => pyContains k (pyLower (answerStr a)))

/-- Predicate of claim C5: some required term of the category occurs as a
substring of the lower-cased answer text or the lower-cased questionId. -/
def complianceMatch (category : String) (a : Answer) : Bool :=
  (category_requirements category).any
    (fun t => pyContains t (pyLower (answerStr a)) || pyContains t (pyLower a.questionId))

/-- The four category keys that have an explicit required-term list. -/
def knownCategories : List String :=
  ["Electronics", "Food & Beverage", "Clothing", "Health & Beauty"]

/-- Predicate of claim C4: the answer is non-empty, i.e. its stringified,
trimmed text is not the empty string. -/
def nonEmptyAnswer (a : Answer) : Bool :=
  pyStrip (answerStr a) ≠ ""

/-- Length-tier value of claim C4, applied to an answer's trimmed text. -/
def tierOf (a : Answer) : Nat :=
  qualityTier (pyStrip (answerStr a))

/-- Claim C6's tie-break rule: the first area in the fixed order
completeness, quality, transparency, compliance whose value equals the
minimum of the four sub-scores. -/
def firstMinArea (b : Breakdown) : ScoreArea :=
  let m := min (min (min b.completeness b.quality) b.transparency) b.compliance
  if b.completeness = m then .completeness
  else if b.quality = m then .quality
  else if b.transparency = m then .transparency
  else .compliance

/-- The question-type enum of the spec's data model. -/
def allowed_types : List String :=
  ["text", "number", "boolean", "select"]

/-- Claim C8 as stated: normalization that defaults the type to "text" when
it is absent or invalid (not one of the four enum values). -/
def normalize_question_claimed (i : Nat) (q : RawQuestion) : ValidatedQuestion :=
  let t :=
    match q.type with
    | none => "text"
    | some s => if s ∈ allowed_types then s else "text"
  { id := match q.id with | none => "ai_question_" ++ toString (i + 1) | some s => s
    question := pyStrip (match q.question with | none => "" | some s => s)
    type := t
    required := match q.required with | none => true | some r => r
    options := if t = "select" then q.options else none }

/-- Claim C8 as stated, applied to the first 3 parsed entries with empty
questions discarded. -/
def validate_questions_claimed (qs : List RawQuestion) : List ValidatedQuestion :=
  (((qs.take 3).enum).map (fun p => normalize_question_claimed p.1 p.2)).filter
    (fun v => v.question ≠ "")

/-- Claim C8 amended: normalization that defaults the type to "text" only
when it is absent; an invalid type string is carried through unchanged. -/
def normalize_question_amended (i : Nat) (q : RawQuestion) : ValidatedQuestion :=
  let t := match q.type with | none => "text" | some s => s
  { id := match q.id with | none => "ai_question_" ++ toString (i + 1) | some s => s
    question := pyStrip (match q.question with | none => "" | some s => s)
    type := t
    required := match q.required with | none => true | some r => r
    options := if t = "select" then q.options else none }

/-- Claim C8 amended, applied to the first 3 parsed entries with empty
questions discarded. -/
def validate_questions_amendedSpec (qs : List RawQuestion) : List ValidatedQuestion :=
  (((qs.take 3).enum).map (fun p => normalize_question_amended p.1 p.2)).filter
    (fun v => v.question ≠ "")

/-! Helper lemmas. -/

theorem isPrefixOf_append_self (n b : List Char) : n.isPrefixOf (n ++ b) = true := by
  induction n with
  | nil => simp [List.isPrefixOf]
  | cons c t ih => simp [List.isPrefixOf, ih]

theorem isSubstr_nil_needle (h : List Char) : isSubstr [] h = true := by
  cases h <;> simp [isSubstr, List.isPrefixOf]

theorem isSubstr_self_append (n b : List Char) : isSubstr n (n ++ b) = true := by
  cases n with
  | nil => simpa using isSubstr_nil_needle b
  | cons c t =>
    have := isPrefixOf_append_self (c :: t) b
    simp only [List.cons_append] at this
    simp [isSubstr, this]

theorem isSubstr_append_left (a n h : List Char) (hh : isSubstr n h = true) :
    isSubstr n (a ++ h) = true := by
  induction a with
  | nil => simpa using hh
  | cons c t ih => simp [isSubstr, ih]

theorem pyContains_sandwich (a n b : String) : pyContains n (a ++ n ++ b) = true := by
  unfold pyContains
  rw [String.data_append, String.data_append, List.append_assoc]
  exact isSubstr_append_left _ _ _ (isSubstr_self_append n.data b.data)

theorem meaningful_eq_amended (a : Answer) : meaningful a = meaningful_amended a := by
  cases ha : a.answer with
  | none => simp [meaningful, meaningful_amended, ha]
  | some v =>
    simp only [meaningful, meaningful_amended, ha]
    by_cases h2 : pyStrip (pyStr v) = ""
    · rw [h2]
      have hlen : ¬(3 < (pyLower "").length) := by decide
      have hmem2 : pyLower "" ∉ (["yes", "true"] : List String) := by decide
      simp [hlen, hmem2]
    · by_cases h1 : truthy v = true
      · by_cases hA : (3 < (pyLower (pyStrip (pyStr v))).length ∧
            pyLower (pyStrip (pyStr v)) ∉ (["yes", "no", "n/a", "na"] : List String))
        · simp [h1, h2, hA]
        · by_cases hB : (pyLower (pyStrip (pyStr v)) ∈ (["yes", "true"] : List String) ∧
              pyContains "certified" a.questionId = true)
          · simp [h1, h2, hA, hB]
          · simp [h1, h2, hA, hB]
      · simp [h1]

theorem keywordPoints_eq (kws : List String) (text : String) :
    keywordPoints kws text
      = if kws.any (fun k => pyContains k text) then 10 else 0 := by
  induction kws with
  | nil => rfl
  | cons k rest ih =>
    simp only [keywordPoints, List.any_cons]
    by_cases hk : pyContains k text = true
    · simp [hk]
    · simp [hk, ih]

theorem transparencyPoints_eq (answers : List Answer) :
    transparencyPoints answers = 10 * answers.countP hasTransparencyKeyword := by
  suffices h : ∀ (l : List Answer) (s : Nat),
      l.foldl (fun acc a => acc + keywordPoints transparency_keywords (pyLower (answerStr a))) s
        = s + 10 * l.countP hasTransparencyKeyword by
    simpa using h answers 0
  intro l
  induction l with
  | nil => intro s; simp
  | cons a rest ih =>
    intro s
    rw [List.foldl_cons, ih, List.countP_cons, keywordPoints_eq]
    have hr : transparency_keywords.any (fun k => pyContains k (pyLower (answerStr a)))
        = hasTransparencyKeyword a := rfl
    rw [hr]
    by_cases h : hasTransparencyKeyword a = true
    · simp [h]
      omega
    · simp [h]

theorem termPoints_eq (terms : List String) (text qid : String) :
    termPoints terms text qid
      = if terms.any (fun t => pyContains t text || pyContains t qid) then 25 else 0 := by
  induction terms with
  | nil => rfl
  | cons t rest ih =>
    simp only [termPoints, List.any_cons]
    by_cases ht : (pyContains t text || pyContains t qid) = true
    · simp [ht]
    · simp [ht, ih]

theorem compliancePoints_eq (answers : List Answer) (category : String) :
    compliancePoints answers category = 25 * answers.countP (complianceMatch category) := by
  suffices h : ∀ (l : List Answer) (s : Nat),
      l.foldl
        (fun acc a =>
          acc + termPoints (category_requirements category) (pyLower (answerStr a))
            (pyLower a.questionId)) s
        = s + 25 * l.countP (complianceMatch category) by
    simpa using h answers 0
  intro l
  induction l with
  | nil => intro s; simp
  | cons a rest ih =>
    intro s
    rw [List.foldl_cons, ih, List.countP_cons, termPoints_eq]
    have hr : (category_requirements category).any
        (fun t => pyContains t (pyLower (answerStr a)) || pyContains t (pyLower a.questionId))
        = complianceMatch category a := rfl
    rw [hr]
    by_cases h : complianceMatch category a = true
    · simp [h]
      omega
    · simp [h]

theorem qualityCounts_eq (l : List Answer) :
    ∀ p n, l.foldl qualityStep (p, n)
      = (p + ((l.filter nonEmptyAnswer).map tierOf).sum, n + l.countP nonEmptyAnswer) := by
  induction l with
  | nil => intro p n; simp
  | cons a rest ih =>
    intro p n
    rw [List.foldl_cons]
    by_cases h : pyStrip (answerStr a) = ""
    · have hne : nonEmptyAnswer a = false := by simp [nonEmptyAnswer, h]
      have hstep : qualityStep (p, n) a = (p, n) := by simp [qualityStep, h]
      rw [hstep, ih]
      simp [List.filter_cons, hne, List.countP_cons]
    · have hne : nonEmptyAnswer a = true := by simp [nonEmptyAnswer, h]
      have hstep : qualityStep (p, n) a = (p + qualityTier (pyStrip (answerStr a)), n + 1) := by
        simp [qualityStep, h]
      rw [hstep, ih]
      simp only [List.filter_cons, hne, if_true, List.map_cons, List.sum_cons,
        List.countP_cons, tierOf, Prod.mk.injEq]
      constructor <;> omega

theorem qualityTier_le_100 (t : String) : qualityTier t ≤ 100 := by
  unfold qualityTier
  split_ifs <;> omega

theorem sum_tiers_le (l : List Answer) :
    ((l.filter nonEmptyAnswer).map tierOf).sum ≤ 100 * l.countP nonEmptyAnswer := by
  rw [List.countP_eq_length_filter]
  induction l.filter nonEmptyAnswer with
  | nil => simp
  | cons a rest ih =>
    simp only [List.map_cons, List.sum_cons, List.length_cons]
    have := qualityTier_le_100 (pyStrip (answerStr a))
    simp only [tierOf]
    omega

theorem argminArea_eq_firstMinArea (b : Breakdown) : argminArea b = firstMinArea b := by
  by_cases h1 : b.quality < b.completeness
  · by_cases h2 : b.transparency < b.quality
    · by_cases h3 : b.compliance < b.transparency
      · have ha : argminArea b = ScoreArea.compliance := by simp [argminArea, h1, h2, h3]
        have hm : min (min (min b.completeness b.quality) b.transparency) b.compliance
            = b.compliance := by
          rw [min_eq_right h1.le, min_eq_right h2.le, min_eq_right h3.le]
        rw [ha]
        unfold firstMinArea
        rw [hm, if_neg (by intro h; exact absurd h (by intro h; nlinarith)),
          if_neg (by intro h; nlinarith), if_neg (by intro h; nlinarith)]
      · have ha : argminArea b = ScoreArea.transparency := by simp [argminArea, h1, h2, h3]
        have hm : min (min (min b.completeness b.quality) b.transparency) b.compliance
            = b.transparency := by
          rw [min_eq_right h1.le, min_eq_right h2.le, min_eq_left (le_of_not_lt h3)]
        rw [ha]
        unfold firstMinArea
        rw [hm, if_neg (by intro h; nlinarith), if_neg (by intro h; nlinarith), if_pos rfl]
    · by_cases h3 : b.compliance < b.quality
      · have ha : argminArea b = ScoreArea.compliance := by simp [argminArea, h1, h2, h3]
        have hm : min (min (min b.completeness b.quality) b.transparency) b.compliance
            = b.compliance := by
          rw [min_eq_right h1.le, min_eq_left (le_of_not_lt h2), min_eq_right h3.le]
        rw [ha]
        unfold firstMinArea
        have ht := le_of_not_lt h2
        rw [hm, if_neg (by intro h; nlinarith), if_neg (by intro h; nlinarith),
          if_neg (by intro h; nlinarith)]
      · have ha : argminArea b = ScoreArea.quality := by simp [argminArea, h1, h2, h3]
        have hm : min (min (min b.completeness b.quality) b.transparency) b.compliance
            = b.quality := by
          rw [min_eq_right h1.le, min_eq_left (le_of_not_lt h2),
            min_eq_left (le_of_not_lt h3)]
        rw [ha]
        unfold firstMinArea
        rw [hm, if_neg (by intro h; nlinarith), if_pos rfl]
  · by_cases h2 : b.transparency < b.completeness
    · by_cases h3 : b.compliance < b.transparency
      · have ha : argminArea b = ScoreArea.compliance := by simp [argminArea, h1, h2, h3]
        have hm : min (min (min b.completeness b.quality) b.transparency) b.compliance
            = b.compliance := by
          rw [min_eq_left (le_of_not_lt h1), min_eq_right h2.le, min_eq_right h3.le]
        rw [ha]
        unfold firstMinArea
        have hq := le_of_not_lt h1
        rw [hm, if_neg (by intro h; nlinarith), if_neg (by intro h; nlinarith),
          if_neg (by intro h; nlinarith)]
      · have ha : argminArea b = ScoreArea.transparency := by simp [argminArea, h1, h2, h3]
        have hm : min (min (min b.completeness b.quality) b.transparency) b.compliance
            = b.transparency := by
          rw [min_eq_left (le_of_not_lt h1), min_eq_right h2.le,
            min_eq_left (le_of_not_lt h3)]
        rw [ha]
        unfold firstMinArea
        have hq := le_of_not_lt h1
        rw [hm, if_neg (by intro h; nlinarith), if_neg (by intro h; nlinarith), if_pos rfl]
    · by_cases h3 : b.compliance < b.completeness
      · have ha : argminArea b = ScoreArea.compliance := by simp [argminArea, h1, h2, h3]
        have hm : min (min (min b.completeness b.quality) b.transparency) b.compliance
            = b.compliance := by
          rw [min_eq_left (le_of_not_lt h1), min_eq_left (le_of_not_lt h2),
            min_eq_right h3.le]
        rw [ha]
        unfold firstMinArea
        have hq := le_of_not_lt h1
        have ht := le_of_not_lt h2
        rw [hm, if_neg (by intro h; nlinarith), if_neg (by intro h; nlinarith),
          if_neg (by intro h; nlinarith)]
      · have ha : argminArea b = ScoreArea.completeness := by simp [argminArea, h1, h2, h3]
        have hm : min (min (min b.completeness b.quality) b.transparency) b.compliance
            = b.completeness := by
          rw [min_eq_left (le_of_not_lt h1), min_eq_left (le_of_not_lt h2),
            min_eq_left (le_of_not_lt h3)]
        rw [ha]
        unfold firstMinArea
        rw [hm, if_pos rfl]

theorem validate_question_eq_amended (i : Nat) (q : RawQuestion) :
    validate_question i q = normalize_question_amended i q := by
  obtain ⟨oid, oq, oty, oreq, oopt⟩ := q
  have hopt : ∀ (t : String) (oo : Option (List String)),
      (if t = "select" ∧ oo.isSome = true then oo else none)
        = (if t = "select" then oo else none) := by
    intro t oo
    by_cases hsel : t = "select"
    · cases oo <;> simp [hsel]
    · simp [hsel]
  cases oid <;> cases oq <;> cases oty <;> cases oreq <;>
    simp [validate_question, normalize_question_amended, hopt]

theorem validate_questions_go_eq (l : List RawQuestion) :
    ∀ i, validate_questions_go i l
      = ((l.enumFrom i).map (fun p => validate_question p.1 p.2)).filter
          (fun v => v.question ≠ "") := by
  induction l with
  | nil => intro i; rfl
  | cons q rest ih =>
    intro i
    rw [List.enumFrom_cons]
    simp only [List.map_cons, List.filter_cons, validate_questions_go]
    by_cases h : (validate_question i q).question ≠ ""
    · simp [h, ih]
    · simp [h, ih]

/-! Claim theorems. -/

/-- C2: for every list of answers, the transparency sub-score equals 10
points per answer whose lower-cased text contains at least one of the fixed
15 keywords, the total multiplied by 10 and clamped to 0..100; in
particular, a single keyword-matching answer already yields transparency
100. -/
theorem claim_C2_transparency_score (answers : List Answer) (category : String) :
    (calculate_transparency_breakdown answers category).transparency
      = ((min (10 * answers.countP hasTransparencyKeyword * 10) 100 : ℕ) : ℚ)
    ∧ (0 < answers.countP hasTransparencyKeyword →
        (calculate_transparency_breakdown answers category).transparency = 100) := by
  have hb : (calculate_transparency_breakdown answers category).transparency
      = ((min (10 * answers.countP hasTransparencyKeyword * 10) 100 : ℕ) : ℚ) := by
    cases answers with
    | nil => simp [calculate_transparency_breakdown]
    | cons a rest =>
      simp only [calculate_transparency_breakdown, List.isEmpty_cons, Bool.false_eq_true,
        if_false]
      rw [transparencyPoints_eq]
  refine ⟨hb, fun hpos => ?_⟩
  rw [hb]
  have h100 : 100 ≤ 10 * answers.countP hasTransparencyKeyword * 10 := by omega
  rw [min_eq_right h100]
  norm_num

/-- C2 witness: one keyword-matching answer saturates transparency at 100. -/
theorem claim_C2_witness :
    (calculate_transparency_breakdown
      [⟨"q1", some (AnswerValue.str "certified organic product")⟩] "General").transparency
      = 100 :=
  (claim_C2_transparency_score
    [⟨"q1", some (AnswerValue.str "certified organic product")⟩] "General").2 (by decide)

/-- C4: for every list of answers, the quality sub-score is
sum of length-tier points over non-empty answers divided by
(count of non-empty answers times 100), times 100, and 0 when there is no
non-empty answer. -/
theorem claim_C4_quality_score (answers : List Answer) (category : String) :
    (calculate_transparency_breakdown answers category).quality
      = if answers.countP nonEmptyAnswer = 0 then 0
        else ((((answers.filter nonEmptyAnswer).map tierOf).sum : ℕ) : ℚ)
          / ((answers.countP nonEmptyAnswer : ℚ) * 100) * 100 := by
  cases answers with
  | nil => simp [calculate_transparency_breakdown]
  | cons a rest =>
    simp only [calculate_transparency_breakdown, List.isEmpty_cons, Bool.false_eq_true,
      if_false]
    rw [qualityCounts, qualityCounts_eq]
    simp

/-- C5: for every list of answers and category, the compliance sub-score is
25 points per answer matched by some required term of the category (at most
once per answer), clamped to 0..100; unknown categories use the default
required-term list quality, origin, standard. -/
theorem claim_C5_compliance_score (answers : List Answer) (category : String) :
    (calculate_transparency_breakdown answers category).compliance
      = ((min (25 * answers.countP (complianceMatch category)) 100 : ℕ) : ℚ)
    ∧ (category ∉ knownCategories →
        category_requirements category = ["quality", "origin", "standard"]) := by
  constructor
  · cases answers with
    | nil =>
      simp [calculate_transparency_breakdown]
    | cons a rest =>
      simp only [calculate_transparency_breakdown, List.isEmpty_cons, Bool.false_eq_true,
        if_false]
      rw [calculate_category_compliance, compliancePoints_eq]
  · intro hcat
    have h1 : category ≠ "Electronics" := fun h => hcat (by rw [h]; decide)
    have h2 : category ≠ "Food & Beverage" := fun h => hcat (by rw [h]; decide)
    have h3 : category ≠ "Clothing" := fun h => hcat (by rw [h]; decide)
    have h4 : category ≠ "Health & Beauty" := fun h => hcat (by rw [h]; decide)
    rw [category_requirements, if_neg h1, if_neg h2, if_neg h3, if_neg h4]

/-- C5 witness: an unknown category uses the default term list, and an
answer matching three distinct default terms still earns only 25 points. -/
theorem claim_C5_witness :
    (calculate_transparency_breakdown
      [⟨"q1", some (AnswerValue.str "high quality standard origin")⟩] "Toys").compliance = 25
    ∧ category_requirements "Toys" = ["quality", "origin", "standard"] := by
  obtain ⟨h1, h2⟩ := claim_C5_compliance_score
    [⟨"q1", some (AnswerValue.str "high quality standard origin")⟩] "Toys"
  refine ⟨?_, h2 (by decide)⟩
  rw [h1]
  have hc : List.countP (complianceMatch "Toys")
      [⟨"q1", some (AnswerValue.str "high quality standard origin")⟩] = 1 := by decide
  rw [hc]
  norm_num

/-- C3 counterexample: on the single answer with a null value the code
counts nothing as meaningful (completeness 0), while the claimed rule,
applied to the uniformly stringified text "None" (trimmed, lower-cased
"none", length 4), classifies it as meaningful (completeness 100). -/
theorem claim_C3_counterexample :
    (calculate_transparency_breakdown [⟨"q1", some AnswerValue.null⟩] "General").completeness = 0
    ∧ completeness_claimed [⟨"q1", some AnswerValue.null⟩] = 100 := by
  have h1 : List.countP meaningful [⟨"q1", some AnswerValue.null⟩] = 0 := by decide
  have h2 : List.countP meaningful_claimed [⟨"q1", some AnswerValue.null⟩] = 1 := by decide
  constructor
  · simp [calculate_transparency_breakdown, h1]
  · simp [completeness_claimed, h2]

/-- C3 amended: completeness equals meaningfulCount / totalAnswers times
100 (0 for an empty list), where an answer is meaningful exactly when its
value is present and truthy in Python's sense (so never for null, false,
zero or an empty string) and additionally its trimmed lower-cased text has
length greater than 3 and is outside the yes/no/n-slash-a/na set, or its
text is yes or true and its questionId contains "certified". -/
theorem claim_C3_amended_completeness (answers : List Answer) (category : String) :
    (calculate_transparency_breakdown answers category).completeness
      = if answers = [] then 0
        else ((answers.countP meaningful_amended : ℚ) / (answers.length : ℚ)) * 100 := by
  have hfun : answers.countP meaningful = answers.countP meaningful_amended := by
    induction answers with
    | nil => rfl
    | cons a rest ih => simp [List.countP_cons, ih, meaningful_eq_amended a]
  cases answers with
  | nil => simp [calculate_transparency_breakdown]
  | cons a rest =>
    rw [if_neg (by simp : ¬(a :: rest : List Answer) = [])]
    simp only [calculate_transparency_breakdown, List.isEmpty_cons, Bool.false_eq_true,
      if_false]
    rw [hfun]

/-- C7: a missing request body and an empty (or missing, hence
defaulted-to-empty) answers list both yield a 400 response carrying an
error field and no transparency score, and no scoring is performed. -/
theorem claim_C7_bad_request :
    (transparency_score_endpoint none
        = ScoreResponse.err 400 "Missing request data" "Please provide product data with answers"
      ∧ (transparency_score_endpoint none).overallScore? = none)
    ∧ ∀ req : ScoreRequest, req.answers = [] →
        transparency_score_endpoint (some req)
            = ScoreResponse.err 400 "Missing answers" "Please provide product answers for scoring"
          ∧ (transparency_score_endpoint (some req)).overallScore? = none := by
  refine ⟨⟨rfl, rfl⟩, fun req h => ?_⟩
  have hmain : transparency_score_endpoint (some req)
      = ScoreResponse.err 400 "Missing answers" "Please provide product answers for scoring" := by
    simp [transparency_score_endpoint, h]
  exact ⟨hmain, by rw [hmain]; rfl⟩

/-- C7 witness: the concrete empty-answers request is rejected with 400. -/
theorem claim_C7_witness :
    transparency_score_endpoint (some ⟨"Widget", "Electronics", []⟩)
        = ScoreResponse.err 400 "Missing answers" "Please provide product answers for scoring"
      ∧ (transparency_score_endpoint (some ⟨"Widget", "Electronics", []⟩)).overallScore? = none :=
  claim_C7_bad_request.2 ⟨"Widget", "Electronics", []⟩ rfl

theorem completeness_bounds (answers : List Answer) (category : String) :
    0 ≤ (calculate_transparency_breakdown answers category).completeness ∧
      (calculate_transparency_breakdown answers category).completeness ≤ 100 := by
  cases answers with
  | nil => simp [calculate_transparency_breakdown]
  | cons a rest =>
    simp only [calculate_transparency_breakdown, List.isEmpty_cons, Bool.false_eq_true,
      if_false]
    constructor
    · positivity
    · have hlen : (0 : ℚ) < ((a :: rest : List Answer).length : ℚ) := by
        have : 0 < (a :: rest : List Answer).length := by simp
        exact_mod_cast this
      have hle : (((a :: rest : List Answer).countP meaningful : ℕ) : ℚ)
          ≤ (((a :: rest : List Answer).length : ℕ) : ℚ) := by
        exact_mod_cast List.countP_le_length meaningful
      calc (((a :: rest : List Answer).countP meaningful : ℚ)
              / ((a :: rest : List Answer).length : ℚ)) * 100
          ≤ 1 * 100 := by
            apply mul_le_mul_of_nonneg_right _ (by norm_num)
            exact (div_le_one hlen).2 hle
        _ = 100 := by norm_num

theorem quality_bounds (answers : List Answer) (category : String) :
    0 ≤ (calculate_transparency_breakdown answers category).quality ∧
      (calculate_transparency_breakdown answers category).quality ≤ 100 := by
  cases answers with
  | nil => simp [calculate_transparency_breakdown]
  | cons a rest =>
    simp only [calculate_transparency_breakdown, List.isEmpty_cons, Bool.false_eq_true,
      if_false]
    rw [qualityCounts, qualityCounts_eq]
    simp only [Nat.zero_add]
    by_cases h : (a :: rest : List Answer).countP nonEmptyAnswer = 0
    · simp [h]
    · rw [if_neg h]
      constructor
      · positivity
      · have hcpos : (0 : ℚ)
            < (((a :: rest : List Answer).countP nonEmptyAnswer : ℕ) : ℚ) * 100 := by
          have : 0 < (a :: rest : List Answer).countP nonEmptyAnswer :=
            Nat.pos_of_ne_zero h
          have hc : (0 : ℚ) < (((a :: rest : List Answer).countP nonEmptyAnswer : ℕ) : ℚ) := by
            exact_mod_cast this
          linarith
        have hle : (((((a :: rest : List Answer).filter nonEmptyAnswer).map tierOf).sum : ℕ) : ℚ)
            ≤ (((a :: rest : List Answer).countP nonEmptyAnswer : ℕ) : ℚ) * 100 := by
          have := sum_tiers_le (a :: rest)
          have hcast : (((((a :: rest : List Answer).filter nonEmptyAnswer).map tierOf).sum : ℕ) : ℚ)
              ≤ ((100 * (a :: rest : List Answer).countP nonEmptyAnswer : ℕ) : ℚ) := by
            exact_mod_cast this
          calc (((((a :: rest : List Answer).filter nonEmptyAnswer).map tierOf).sum : ℕ) : ℚ)
              ≤ ((100 * (a :: rest : List Answer).countP nonEmptyAnswer : ℕ) : ℚ) := hcast
            _ = (((a :: rest : List Answer).countP nonEmptyAnswer : ℕ) : ℚ) * 100 := by
                push_cast; ring
        calc (((((a :: rest : List Answer).filter nonEmptyAnswer).map tierOf).sum : ℕ) : ℚ)
                / ((((a :: rest : List Answer).countP nonEmptyAnswer : ℕ) : ℚ) * 100) * 100
            ≤ 1 * 100 := by
              apply mul_le_mul_of_nonneg_right _ (by norm_num)
              exact (div_le_one hcpos).2 hle
          _ = 100 := by norm_num

theorem transparency_bounds (answers : List Answer) (category : String) :
    0 ≤ (calculate_transparency_breakdown answers category).transparency ∧
      (calculate_transparency_breakdown answers category).transparency ≤ 100 := by
  cases answers with
  | nil => simp [calculate_transparency_breakdown]
  | cons a rest =>
    simp only [calculate_transparency_breakdown, List.isEmpty_cons, Bool.false_eq_true,
      if_false]
    constructor
    · positivity
    · exact_mod_cast min_le_right (transparencyPoints (a :: rest) * 10) 100

theorem compliance_bounds (answers : List Answer) (category : String) :
    0 ≤ (calculate_transparency_breakdown answers category).compliance ∧
      (calculate_transparency_breakdown answers category).compliance ≤ 100 := by
  cases answers with
  | nil => simp [calculate_transparency_breakdown]
  | cons a rest =>
    simp only [calculate_transparency_breakdown, List.isEmpty_cons, Bool.false_eq_true,
      if_false, calculate_category_compliance]
    constructor
    · positivity
    · exact_mod_cast min_le_right (compliancePoints (a :: rest) category) 100

/-- C1: every sub-score of the breakdown lies in 0..100, and for every
non-empty scoring request the reported overall score is the unweighted
arithmetic mean of the four sub-scores rounded to one decimal place. -/
theorem claim_C1_bounds_and_overall :
    (∀ (answers : List Answer) (category : String),
      (0 ≤ (calculate_transparency_breakdown answers category).completeness
          ∧ (calculate_transparency_breakdown answers category).completeness ≤ 100)
      ∧ (0 ≤ (calculate_transparency_breakdown answers category).quality
          ∧ (calculate_transparency_breakdown answers category).quality ≤ 100)
      ∧ (0 ≤ (calculate_transparency_breakdown answers category).transparency
          ∧ (calculate_transparency_breakdown answers category).transparency ≤ 100)
      ∧ (0 ≤ (calculate_transparency_breakdown answers category).compliance
          ∧ (calculate_transparency_breakdown answers category).compliance ≤ 100))
    ∧ (∀ req : ScoreRequest, req.answers ≠ [] →
        (transparency_score_endpoint (some req)).overallScore?
          = some (round1
              (((calculate_transparency_breakdown req.answers req.category).completeness
                + (calculate_transparency_breakdown req.answers req.category).quality
                + (calculate_transparency_breakdown req.answers req.category).transparency
                + (calculate_transparency_breakdown req.answers req.category).compliance)
              / 4))) := by
  constructor
  · intro answers category
    exact ⟨completeness_bounds answers category, quality_bounds answers category,
      transparency_bounds answers category, compliance_bounds answers category⟩
  · intro req hne
    have hemp : req.answers.isEmpty = false := by
      rcases h : req.answers with _ | ⟨a, l⟩
      · exact absurd h hne
      · rfl
    simp only [transparency_score_endpoint, hemp, Bool.false_eq_true, if_false,
      ScoreResponse.overallScore?, overall_of]

/-- C1 witness: the overall score of a concrete non-empty request is the
rounded mean of its four sub-scores. -/
theorem claim_C1_witness :
    (transparency_score_endpoint (some ⟨"Widget", "General",
        [⟨"q1", some (AnswerValue.str "certified organic product")⟩]⟩)).overallScore?
      = some (round1
          (((calculate_transparency_breakdown
              [⟨"q1", some (AnswerValue.str "certified organic product")⟩] "General").completeness
            + (calculate_transparency_breakdown
              [⟨"q1", some (AnswerValue.str "certified organic product")⟩] "General").quality
            + (calculate_transparency_breakdown
              [⟨"q1", some (AnswerValue.str "certified organic product")⟩] "General").transparency
            + (calculate_transparency_breakdown
              [⟨"q1", some (AnswerValue.str "certified organic product")⟩] "General").compliance)
          / 4)) :=
  claim_C1_bounds_and_overall.2 ⟨"Widget", "General",
    [⟨"q1", some (AnswerValue.str "certified organic product")⟩]⟩ (by decide)

/-- C6: generate_basic_recommendations always returns exactly 3 non-empty
strings: first the fixed recommendation of the lowest-scoring sub-category
(ties broken by the fixed order completeness, quality, transparency,
compliance), then the certification recommendation when transparency is
below 70 and the documentation recommendation when quality is below 70,
padded with the generic filler to exactly 3. -/
theorem claim_C6_basic_recommendations (b : Breakdown) :
    (generate_basic_recommendations b).length = 3
    ∧ (∀ s ∈ generate_basic_recommendations b, s ≠ "")
    ∧ (generate_basic_recommendations b).head? = some (recommendation_map (firstMinArea b))
    ∧ (b.transparency < 70 → certRec ∈ generate_basic_recommendations b)
    ∧ (b.quality < 70 → docRec ∈ generate_basic_recommendations b) := by
  have harg := argminArea_eq_firstMinArea b
  have hrm : recommendation_map (argminArea b) ≠ "" := by
    cases argminArea b <;> decide
  have hcert : certRec ≠ "" := by decide
  have hdoc : docRec ≠ "" := by decide
  have hfill : fillerRec ≠ "" := by decide
  by_cases ht : b.transparency < 70
  · by_cases hq : b.quality < 70
    · have hlist : generate_basic_recommendations b
          = [recommendation_map (argminArea b), certRec, docRec] := by
        simp [generate_basic_recommendations, ht, hq]
      rw [hlist]
      refine ⟨rfl, ?_, by simp [harg], fun _ => by simp, fun _ => by simp⟩
      intro s hs
      simp only [List.mem_cons, List.not_mem_nil, or_false] at hs
      rcases hs with rfl | rfl | rfl
      · exact hrm
      · exact hcert
      · exact hdoc
    · have hlist : generate_basic_recommendations b
          = [recommendation_map (argminArea b), certRec, fillerRec] := by
        simp [generate_basic_recommendations, ht, hq, List.replicate]
      rw [hlist]
      refine ⟨rfl, ?_, by simp [harg], fun _ => by simp, fun h => absurd h hq⟩
      intro s hs
      simp only [List.mem_cons, List.not_mem_nil, or_false] at hs
      rcases hs with rfl | rfl | rfl
      · exact hrm
      · exact hcert
      · exact hfill
  · by_cases hq : b.quality < 70
    · have hlist : generate_basic_recommendations b
          = [recommendation_map (argminArea b), docRec, fillerRec] := by
        simp [generate_basic_recommendations, ht, hq, List.replicate]
      rw [hlist]
      refine ⟨rfl, ?_, by simp [harg], fun h => absurd h ht, fun _ => by simp⟩
      intro s hs
      simp only [List.mem_cons, List.not_mem_nil, or_false] at hs
      rcases hs with rfl | rfl | rfl
      · exact hrm
      · exact hdoc
      · exact hfill
    · have hlist : generate_basic_recommendations b
          = [recommendation_map (argminArea b), fillerRec, fillerRec] := by
        simp [generate_basic_recommendations, ht, hq, List.replicate]
      rw [hlist]
      refine ⟨rfl, ?_, by simp [harg], fun h => absurd h ht, fun h => absurd h hq⟩
      intro s hs
      simp only [List.mem_cons, List.not_mem_nil, or_false] at hs
      rcases hs with rfl | rfl | rfl
      · exact hrm
      · exact hfill
      · exact hfill

/-- C6 witness: for the concrete breakdown 50/60/65/80 the generator emits
3 recommendations including the certification and documentation ones. -/
theorem claim_C6_witness :
    (generate_basic_recommendations ⟨50, 60, 65, 80⟩).length = 3
    ∧ certRec ∈ generate_basic_recommendations ⟨50, 60, 65, 80⟩
    ∧ docRec ∈ generate_basic_recommendations ⟨50, 60, 65, 80⟩ := by
  obtain ⟨h1, -, -, h4, h5⟩ := claim_C6_basic_recommendations ⟨50, 60, 65, 80⟩
  exact ⟨h1, h4 (by norm_num), h5 (by norm_num)⟩

/-- C8 counterexample: an entry whose type field holds the invalid string
"banana" is carried through unchanged by the code, while the claim says an
invalid type is defaulted to "text"; the two validators disagree on this
input. -/
theorem claim_C8_counterexample :
    validate_questions
        [⟨some "q1", some "What is the warranty period?", some "banana", some true, none⟩]
      ≠ validate_questions_claimed
        [⟨some "q1", some "What is the warranty period?", some "banana", some true, none⟩] := by
  decide

/-- C8 amended: for each of the first 3 parsed entries the validator
defaults a missing id to a generated placeholder, defaults the type to
"text" only when it is absent (an invalid type string is carried through
unchanged), defaults required to true, trims the question text, discards
entries whose trimmed question is empty, carries options through only when
the type is "select", and outputs at most 3 questions. -/
theorem claim_C8_amended_validation (qs : List RawQuestion) :
    validate_questions qs = validate_questions_amendedSpec qs
    ∧ (validate_questions qs).length ≤ 3 := by
  have hmap : ∀ l : List (Nat × RawQuestion),
      l.map (fun p => validate_question p.1 p.2)
        = l.map (fun p => normalize_question_amended p.1 p.2) := by
    intro l
    induction l with
    | nil => rfl
    | cons p t ih => simp [validate_question_eq_amended, ih]
  have h : validate_questions qs = validate_questions_amendedSpec qs := by
    unfold validate_questions validate_questions_amendedSpec
    rw [validate_questions_go_eq, hmap]
    rfl
  refine ⟨h, ?_⟩
  rw [h]
  have hle : (validate_questions_amendedSpec qs).length
      ≤ (((qs.take 3).enum).map (fun p => normalize_question_amended p.1 p.2)).length :=
    List.length_filter_le _ _
  refine le_trans hle ?_
  simp [List.length_take]

/-- C9: generate_fallback_questions always returns exactly 3 questions from
the fixed per-category table (with the generic default triple for unknown
categories), and every question references "this " followed by the product
name when it is non-empty, and "this product" when it is empty. -/
theorem claim_C9_fallback_questions (category product_name : String) :
    (generate_fallback_questions category product_name).length = 3
    ∧ ((generate_fallback_questions category product_name).all
        (fun q => pyContains
          (if product_name ≠ "" then "this " ++ product_name else "this product")
          q.question)) = true := by
  by_cases hp : product_name = ""
  · simp only [generate_fallback_questions, hp]
    split_ifs <;> exact ⟨rfl, by decide⟩
  · simp only [generate_fallback_questions, hp]
    split_ifs <;>
      exact ⟨rfl, by simp [List.all_cons, List.all_nil, pyContains_sandwich]⟩

/-- C10: a null or boolean-false answer value is never meaningful for the
completeness scorer yet stringifies to the non-empty text "None" or
"False" and earns the 25-point quality tier, so a non-empty list of only
null/false answers has completeness 0 and quality 25. -/
theorem claim_C10_null_false_divergence :
    (∀ a : Answer,
      a.answer = some AnswerValue.null ∨ a.answer = some (AnswerValue.boolV false) →
      meaningful a = false ∧ pyStrip (answerStr a) ≠ ""
        ∧ qualityTier (pyStrip (answerStr a)) = 25)
    ∧ ∀ (answers : List Answer) (category : String), answers ≠ [] →
        (∀ a ∈ answers,
          a.answer = some AnswerValue.null ∨ a.answer = some (AnswerValue.boolV false)) →
        (calculate_transparency_breakdown answers category).completeness = 0
        ∧ (calculate_transparency_breakdown answers category).quality = 25 := by
  have hper : ∀ a : Answer,
      a.answer = some AnswerValue.null ∨ a.answer = some (AnswerValue.boolV false) →
      meaningful a = false ∧ pyStrip (answerStr a) ≠ ""
        ∧ qualityTier (pyStrip (answerStr a)) = 25 := by
    intro a h
    rcases h with h | h
    · have hs : answerStr a = "None" := by simp [answerStr, h, pyStr]
      refine ⟨by simp [meaningful, h, truthy], ?_, ?_⟩
      · rw [hs]; decide
      · rw [hs]; decide
    · have hs : answerStr a = "False" := by simp [answerStr, h, pyStr]
      refine ⟨by simp [meaningful, h, truthy], ?_, ?_⟩
      · rw [hs]; decide
      · rw [hs]; decide
  refine ⟨hper, ?_⟩
  intro answers category hne hall
  have hsum : ∀ l : List Answer,
      (∀ a ∈ l, a.answer = some AnswerValue.null ∨ a.answer = some (AnswerValue.boolV false)) →
      (l.map tierOf).sum = 25 * l.length := by
    intro l
    induction l with
    | nil => intro _; simp
    | cons x rest ih =>
      intro hl
      have h25 := (hper x (hl x (by simp))).2.2
      have hrest := ih (fun y hy => hl y (by simp [hy]))
      simp only [List.map_cons, List.sum_cons, List.length_cons, tierOf, h25, hrest]
      ring
  have hfil : answers.filter nonEmptyAnswer = answers := by
    rw [List.filter_eq_self]
    intro a ha
    have := (hper a (hall a ha)).2.1
    simp [nonEmptyAnswer, this]
  have hcnt : answers.countP nonEmptyAnswer = answers.length := by
    rw [List.countP_eq_length]
    intro a ha
    have := (hper a (hall a ha)).2.1
    simp [nonEmptyAnswer, this]
  have h0 : answers.countP meaningful = 0 := by
    rw [List.countP_eq_zero]
    intro a ha
    have := (hper a (hall a ha)).1
    simp [this]
  rcases answers with _ | ⟨a, rest⟩
  · exact absurd rfl hne
  · constructor
    · simp only [calculate_transparency_breakdown, List.isEmpty_cons, Bool.false_eq_true,
        if_false]
      rw [h0]
      simp
    · simp only [calculate_transparency_breakdown, List.isEmpty_cons, Bool.false_eq_true,
        if_false]
      rw [qualityCounts, qualityCounts_eq]
      simp only [Nat.zero_add]
      rw [hfil, hcnt, hsum _ hall]
      have hlen0 : (a :: rest : List Answer).length ≠ 0 := by simp
      rw [if_neg hlen0]
      have hn : ((a :: rest : List Answer).length : ℚ) ≠ 0 := by exact_mod_cast hlen0
      push_cast
      field_simp
      ring

/-- C10 witness: the concrete list of one null and one false answer has
completeness 0 and quality 25. -/
theorem claim_C10_witness :
    (calculate_transparency_breakdown
        [⟨"q1", some AnswerValue.null⟩, ⟨"q2", some (AnswerValue.boolV false)⟩]
        "General").completeness = 0
    ∧ (calculate_transparency_breakdown
        [⟨"q1", some AnswerValue.null⟩, ⟨"q2", some (AnswerValue.boolV false)⟩]
        "General").quality = 25 :=
  claim_C10_null_false_divergence.2
    [⟨"q1", some AnswerValue.null⟩, ⟨"q2", some (AnswerValue.boolV false)⟩]
    "General" (by decide) (by decide)

end AltibbeAI
